import Mathlib

/-!
Verification of the equipment rules engine of the choreboard application.

The authoritative logic lives in the SQL migration
`supabase/migrations/20250207041930_wispy_waterfall.sql` (and its duplicates):
the `item_type` and `equipment_slot` enums, the `items`, `hero_inventory` and
`hero_equipment` tables, the `validate_equipment_slot` BEFORE trigger and the
`check_two_handed_weapon` AFTER trigger (fired only `WHEN (NEW.slot IN
('weapon','shield'))`).  We embed the tables as lists of rows and the
equip/unequip operations as the statement-plus-triggers sequence the database
executes.  Timestamps (`created_at`, `equipped_at`, `acquired_at`) carry no
logic and are omitted.
-/

/-- The `item_type` SQL enum:
`('helm','weapon','shield','armor','gloves','two_handed_weapon','robe')`. -/
inductive ItemType where
  | helm | weapon | shield | armor | gloves | two_handed_weapon | robe
deriving DecidableEq, Repr

/-- The `equipment_slot` SQL enum: `('helm','weapon','shield','armor','gloves')`. -/
inductive EquipmentSlot where
  | helm | weapon | shield | armor | gloves
deriving DecidableEq, Repr

/-- The cast `slot::text::item_type` used by `validate_equipment_slot`:
every slot name is also an item-type name. -/
def slotToItemType : EquipmentSlot → ItemType
  | .helm => .helm
  | .weapon => .weapon
  | .shield => .shield
  | .armor => .armor
  | .gloves => .gloves

/-- A row of the `items` table (id, name, description, item_types);
`id` is the primary key. -/
structure Item where
  id : Nat
  name : String
  description : Option String
  item_types : List ItemType
deriving DecidableEq, Repr

/-- A row of the `hero_equipment` table; primary key (hero_id, slot). -/
structure EquippedEntry where
  hero_id : Nat
  item_id : Nat
  slot : EquipmentSlot
deriving DecidableEq, Repr

/-- A row of the `hero_inventory` table; primary key (hero_id, item_id). -/
structure InventoryEntry where
  hero_id : Nat
  item_id : Nat
  quantity : Int
deriving DecidableEq, Repr

/-- The mutable database state the equipment operations touch:
the `hero_equipment` and `hero_inventory` tables.  The read-only `items`
table (the item catalog) is passed separately. -/
structure DBState where
  hero_equipment : List EquippedEntry
  hero_inventory : List InventoryEntry
deriving DecidableEq, Repr

/-- `SELECT ... FROM items WHERE id = itemId`: since `id` is the primary key
this resolves to at most one row. -/
def findItem (items : List Item) (itemId : Nat) : Option Item :=
  items.find? (fun it => decide (it.id = itemId))

/-- The compatibility condition of the `validate_equipment_slot` trigger
(also the `valid_equipment_slot` CHECK constraint), as a pure predicate on
the resolved item: direct slot match, the two-handed-weapon override for
the weapon/shield slots, or the robe override for the armor/helm slots. -/
def canEquip (item : Item) (slot : EquipmentSlot) : Bool :=
  decide (slotToItemType slot ∈ item.item_types)
  || (decide (slot = .weapon ∨ slot = .shield)
      && decide (ItemType.two_handed_weapon ∈ item.item_types))
  || (decide (slot = .armor ∨ slot = .helm)
      && decide (ItemType.robe ∈ item.item_types))

/-- The `EXISTS` test of `validate_equipment_slot`: some `items` row has
`id = itemId` and satisfies the compatibility condition.  A missing item id
makes the `EXISTS` false, so the trigger raises the same exception as an
incompatible slot. -/
def validate_equipment_slot (items : List Item) (itemId : Nat)
    (slot : EquipmentSlot) : Bool :=
  match findItem items itemId with
  | some it => canEquip it slot
  | none => false

/-- The `EXISTS` test of `check_two_handed_weapon`: the `items` row with
`id = itemId` lists `two_handed_weapon` among its `item_types`. -/
def isTwoHanded (items : List Item) (itemId : Nat) : Bool :=
  match findItem items itemId with
  | some it => decide (ItemType.two_handed_weapon ∈ it.item_types)
  | none => false

/-- `DELETE FROM hero_equipment WHERE hero_id = h AND slot = s`
(the row-replacement half of the upsert on primary key (hero_id, slot),
and the whole of `unequip`). -/
def removeEquip (l : List EquippedEntry) (h : Nat) (s : EquipmentSlot) :
    List EquippedEntry :=
  l.filter (fun e => decide (¬(e.hero_id = h ∧ e.slot = s)))

/-- The `DELETE` inside `check_two_handed_weapon`:
`DELETE FROM hero_equipment WHERE hero_id = h AND slot IN ('weapon','shield')
AND slot != s`. -/
def deleteSiblings (l : List EquippedEntry) (h : Nat) (s : EquipmentSlot) :
    List EquippedEntry :=
  l.filter (fun e =>
    decide (¬(e.hero_id = h ∧ (e.slot = .weapon ∨ e.slot = .shield) ∧ e.slot ≠ s)))

/-- Errors of the equip operation.  The code raises a single exception,
`'Item cannot be equipped in the specified slot'`, embedded as
`incompatibleSlot`; `itemNotFound` is the distinct error the specification
postulates for an unresolvable item id, and is included only so that the two
can be compared — no code path produces it. -/
inductive EquipError where
  | incompatibleSlot
  | itemNotFound
deriving DecidableEq, Repr

/-- `equip`: the upsert into `hero_equipment` together with its triggers, as
one transaction.  The BEFORE trigger `validate_equipment_slot` raises (and so
aborts the transaction with no state change) unless some catalog row matches
the item id and the compatibility condition; then the row for (h, s) is
replaced; then the AFTER trigger `enforce_two_handed_weapon` — fired only
`WHEN (NEW.slot IN ('weapon','shield'))` — deletes the sibling weapon/shield
rows when the item is two-handed.  An error result models the raised
exception: the transaction aborts and no state is produced. -/
def equip (items : List Item) (st : DBState) (h : Nat) (itemId : Nat)
    (s : EquipmentSlot) : Except EquipError DBState :=
  if validate_equipment_slot items itemId s then
    let eq1 : List EquippedEntry :=
      ⟨h, itemId, s⟩ :: removeEquip st.hero_equipment h s
    let eq2 : List EquippedEntry :=
      if decide (s = .weapon ∨ s = .shield) && isTwoHanded items itemId then
        deleteSiblings eq1 h s
      else
        eq1
    .ok ⟨eq2, st.hero_inventory⟩
  else
    .error .incompatibleSlot

/-- `unequip`: `DELETE FROM hero_equipment WHERE hero_id = h AND slot = s`.
No trigger reacts to deletes, so it always succeeds and touches nothing else. -/
def unequip (st : DBState) (h : Nat) (s : EquipmentSlot) : DBState :=
  ⟨removeEquip st.hero_equipment h s, st.hero_inventory⟩

/-- `getEquipped(heroId, slot)`: the `item_id` of the `hero_equipment` row
with primary key (h, s), if any. -/
def getEquipped (st : DBState) (h : Nat) (s : EquipmentSlot) : Option Nat :=
  (st.hero_equipment.find? (fun e => decide (e.hero_id = h ∧ e.slot = s))).map
    (fun e => e.item_id)

/-- List-level lookup used to reason about `getEquipped`. -/
def lkp (l : List EquippedEntry) (h : Nat) (s : EquipmentSlot) : Option Nat :=
  (l.find? (fun e => decide (e.hero_id = h ∧ e.slot = s))).map (fun e => e.item_id)

/-- The transactional view of `equip`: a raised exception aborts the
transaction, so on an error result the database state is the state before
the call. -/
def applyEquip (items : List Item) (st : DBState) (h : Nat) (itemId : Nat)
    (s : EquipmentSlot) : DBState :=
  match equip items st h itemId s with
  | .ok st' => st'
  | .error _ => st

theorem getEquipped_eq_lkp (st : DBState) (h : Nat) (s : EquipmentSlot) :
    getEquipped st h s = lkp st.hero_equipment h s := rfl

/-- States reachable from an empty equipment state by successful equip and
unequip operations, over a fixed item catalog. -/
inductive Reachable (items : List Item) : DBState → Prop where
  | empty (inv : List InventoryEntry) : Reachable items ⟨[], inv⟩
  | equip_step (st st' : DBState) (h itemId : Nat) (s : EquipmentSlot) :
      Reachable items st → equip items st h itemId s = .ok st' →
      Reachable items st'
  | unequip_step (st : DBState) (h : Nat) (s : EquipmentSlot) :
      Reachable items st → Reachable items (unequip st h s)

theorem lkp_cons_of_pos (e : EquippedEntry) (t : List EquippedEntry)
    (h' : Nat) (s' : EquipmentSlot) (hp : e.hero_id = h' ∧ e.slot = s') :
    lkp (e :: t) h' s' = some e.item_id := by
  unfold lkp
  rw [List.find?_cons_of_pos _ (by simpa using hp)]
  rfl

theorem lkp_cons_of_neg (e : EquippedEntry) (t : List EquippedEntry)
    (h' : Nat) (s' : EquipmentSlot) (hn : ¬(e.hero_id = h' ∧ e.slot = s')) :
    lkp (e :: t) h' s' = lkp t h' s' := by
  unfold lkp
  rw [List.find?_cons_of_neg _ (by simpa using hn)]

theorem removeEquip_cons (e : EquippedEntry) (t : List EquippedEntry)
    (h : Nat) (s : EquipmentSlot) :
    removeEquip (e :: t) h s =
      if e.hero_id = h ∧ e.slot = s then removeEquip t h s
      else e :: removeEquip t h s := by
  by_cases he : e.hero_id = h ∧ e.slot = s <;>
    simp [removeEquip, List.filter_cons, he]

theorem deleteSiblings_cons (e : EquippedEntry) (t : List EquippedEntry)
    (h : Nat) (s : EquipmentSlot) :
    deleteSiblings (e :: t) h s =
      if e.hero_id = h ∧ (e.slot = .weapon ∨ e.slot = .shield) ∧ e.slot ≠ s then
        deleteSiblings t h s
      else e :: deleteSiblings t h s := by
  by_cases he : e.hero_id = h ∧ (e.slot = .weapon ∨ e.slot = .shield) ∧ e.slot ≠ s <;>
    · simp [deleteSiblings, List.filter_cons, he]
      tauto

theorem lkp_removeEquip (l : List EquippedEntry) (h : Nat) (s : EquipmentSlot)
    (h' : Nat) (s' : EquipmentSlot) :
    lkp (removeEquip l h s) h' s' =
      if h' = h ∧ s' = s then none else lkp l h' s' := by
  induction l with
  | nil => simp [removeEquip, lkp]
  | cons e t ih =>
    rw [removeEquip_cons]
    by_cases he : e.hero_id = h ∧ e.slot = s
    · rw [if_pos he, ih]
      by_cases hk : h' = h ∧ s' = s
      · rw [if_pos hk, if_pos hk]
      · rw [if_neg hk, if_neg hk, lkp_cons_of_neg]
        rintro ⟨h1, h2⟩
        exact hk ⟨h1 ▸ he.1, h2 ▸ he.2⟩
    · rw [if_neg he]
      by_cases hk : e.hero_id = h' ∧ e.slot = s'
      · have hne : ¬(h' = h ∧ s' = s) := by
          rintro ⟨rfl, rfl⟩
          exact he ⟨hk.1, hk.2⟩
        rw [lkp_cons_of_pos e _ h' s' hk, if_neg hne, lkp_cons_of_pos e t h' s' hk]
      · rw [lkp_cons_of_neg e _ h' s' hk, ih, lkp_cons_of_neg e t h' s' hk]

theorem lkp_deleteSiblings (l : List EquippedEntry) (h : Nat) (s : EquipmentSlot)
    (h' : Nat) (s' : EquipmentSlot) :
    lkp (deleteSiblings l h s) h' s' =
      if h' = h ∧ (s' = .weapon ∨ s' = .shield) ∧ s' ≠ s then none
      else lkp l h' s' := by
  induction l with
  | nil => simp [deleteSiblings, lkp]
  | cons e t ih =>
    rw [deleteSiblings_cons]
    by_cases he : e.hero_id = h ∧ (e.slot = .weapon ∨ e.slot = .shield) ∧ e.slot ≠ s
    · rw [if_pos he, ih]
      by_cases hk : h' = h ∧ (s' = .weapon ∨ s' = .shield) ∧ s' ≠ s
      · rw [if_pos hk, if_pos hk]
      · rw [if_neg hk, if_neg hk, lkp_cons_of_neg]
        rintro ⟨h1, h2⟩
        exact hk ⟨h1 ▸ he.1, h2 ▸ he.2.1, h2 ▸ he.2.2⟩
    · rw [if_neg he]
      by_cases hk : e.hero_id = h' ∧ e.slot = s'
      · have hne : ¬(h' = h ∧ (s' = .weapon ∨ s' = .shield) ∧ s' ≠ s) := by
          rintro ⟨rfl, h2, h3⟩
          exact he ⟨hk.1, hk.2 ▸ h2, hk.2 ▸ h3⟩
        rw [lkp_cons_of_pos e _ h' s' hk, if_neg hne, lkp_cons_of_pos e t h' s' hk]
      · rw [lkp_cons_of_neg e _ h' s' hk, ih, lkp_cons_of_neg e t h' s' hk]

theorem equip_of_validate (items : List Item) (st : DBState) (h itemId : Nat)
    (s : EquipmentSlot) (hv : validate_equipment_slot items itemId s = true) :
    equip items st h itemId s =
      .ok ⟨if decide (s = .weapon ∨ s = .shield) && isTwoHanded items itemId then
             deleteSiblings (⟨h, itemId, s⟩ :: removeEquip st.hero_equipment h s) h s
           else ⟨h, itemId, s⟩ :: removeEquip st.hero_equipment h s,
           st.hero_inventory⟩ := by
  simp [equip, hv]

theorem equip_ok_validate (items : List Item) (st st' : DBState) (h itemId : Nat)
    (s : EquipmentSlot) (hok : equip items st h itemId s = .ok st') :
    validate_equipment_slot items itemId s = true := by
  cases hval : validate_equipment_slot items itemId s with
  | true => rfl
  | false => simp [equip, hval] at hok

theorem equip_ok_state (items : List Item) (st st' : DBState) (h itemId : Nat)
    (s : EquipmentSlot) (hok : equip items st h itemId s = .ok st') :
    st' = ⟨if decide (s = .weapon ∨ s = .shield) && isTwoHanded items itemId then
             deleteSiblings (⟨h, itemId, s⟩ :: removeEquip st.hero_equipment h s) h s
           else ⟨h, itemId, s⟩ :: removeEquip st.hero_equipment h s,
           st.hero_inventory⟩ := by
  have hv := equip_ok_validate items st st' h itemId s hok
  rw [equip_of_validate items st h itemId s hv] at hok
  exact (Except.ok.inj hok).symm

theorem getEquipped_equip_ok (items : List Item) (st st' : DBState)
    (h itemId : Nat) (s : EquipmentSlot)
    (hok : equip items st h itemId s = .ok st') (h' : Nat) (s' : EquipmentSlot) :
    getEquipped st' h' s' =
      if h' = h ∧ s' = s then some itemId
      else if (s = .weapon ∨ s = .shield) ∧ isTwoHanded items itemId = true
              ∧ h' = h ∧ (s' = .weapon ∨ s' = .shield) then none
      else getEquipped st h' s' := by
  have hst := equip_ok_state items st st' h itemId s hok
  subst hst
  rw [getEquipped_eq_lkp, getEquipped_eq_lkp]
  by_cases hc : (decide (s = .weapon ∨ s = .shield) && isTwoHanded items itemId) = true
  · simp only [hc, if_true]
    obtain ⟨hws, hth⟩ : (s = .weapon ∨ s = .shield) ∧ isTwoHanded items itemId = true := by
      simpa using hc
    rw [lkp_deleteSiblings]
    by_cases hk : h' = h ∧ s' = s
    · have hnsib : ¬(h' = h ∧ (s' = .weapon ∨ s' = .shield) ∧ s' ≠ s) := by
        rintro ⟨_, _, hne⟩
        exact hne hk.2
      have hp : (⟨h, itemId, s⟩ : EquippedEntry).hero_id = h' ∧
          (⟨h, itemId, s⟩ : EquippedEntry).slot = s' := ⟨hk.1.symm, hk.2.symm⟩
      rw [if_neg hnsib, if_pos hk, lkp_cons_of_pos _ _ _ _ hp]
    · rw [if_neg hk]
      by_cases hsib : h' = h ∧ (s' = .weapon ∨ s' = .shield)
      · have hcond : h' = h ∧ (s' = .weapon ∨ s' = .shield) ∧ s' ≠ s :=
          ⟨hsib.1, hsib.2, fun hss => hk ⟨hsib.1, hss⟩⟩
        rw [if_pos hcond, if_pos ⟨hws, hth, hsib.1, hsib.2⟩]
      · have hcond : ¬(h' = h ∧ (s' = .weapon ∨ s' = .shield) ∧ s' ≠ s) := by
          rintro ⟨a, b, _⟩
          exact hsib ⟨a, b⟩
        have hn : ¬((⟨h, itemId, s⟩ : EquippedEntry).hero_id = h' ∧
            (⟨h, itemId, s⟩ : EquippedEntry).slot = s') := by
          rintro ⟨a, b⟩
          exact hk ⟨a.symm, b.symm⟩
        rw [if_neg hcond, if_neg (fun hx => hsib ⟨hx.2.2.1, hx.2.2.2⟩),
          lkp_cons_of_neg _ _ _ _ hn, lkp_removeEquip, if_neg hk]
  · have hc' : (decide (s = .weapon ∨ s = .shield) && isTwoHanded items itemId) = false := by
      simpa using hc
    simp only [hc', Bool.false_eq_true, if_false]
    have hcond2 : ¬((s = .weapon ∨ s = .shield) ∧ isTwoHanded items itemId = true
        ∧ h' = h ∧ (s' = .weapon ∨ s' = .shield)) := by
      rintro ⟨a, b, _⟩
      exact hc (by simp [a, b])
    by_cases hk : h' = h ∧ s' = s
    · have hp : (⟨h, itemId, s⟩ : EquippedEntry).hero_id = h' ∧
          (⟨h, itemId, s⟩ : EquippedEntry).slot = s' := ⟨hk.1.symm, hk.2.symm⟩
      rw [if_pos hk, lkp_cons_of_pos _ _ _ _ hp]
    · have hn : ¬((⟨h, itemId, s⟩ : EquippedEntry).hero_id = h' ∧
          (⟨h, itemId, s⟩ : EquippedEntry).slot = s') := by
        rintro ⟨a, b⟩
        exact hk ⟨a.symm, b.symm⟩
      rw [if_neg hk, if_neg hcond2, lkp_cons_of_neg _ _ _ _ hn, lkp_removeEquip,
        if_neg hk]

theorem removeEquip_idem (l : List EquippedEntry) (h : Nat) (s : EquipmentSlot) :
    removeEquip (removeEquip l h s) h s = removeEquip l h s := by
  simp [removeEquip, List.filter_filter, Bool.and_self]

theorem deleteSiblings_idem (l : List EquippedEntry) (h : Nat) (s : EquipmentSlot) :
    deleteSiblings (deleteSiblings l h s) h s = deleteSiblings l h s := by
  simp [deleteSiblings, List.filter_filter, Bool.and_self]

theorem removeEquip_deleteSiblings_comm (l : List EquippedEntry) (h : Nat)
    (s : EquipmentSlot) :
    removeEquip (deleteSiblings l h s) h s = deleteSiblings (removeEquip l h s) h s := by
  simp only [removeEquip, deleteSiblings, List.filter_filter]
  exact List.filter_congr (fun e _ => Bool.and_comm _ _)

theorem getEquipped_unequip (st : DBState) (h0 : Nat) (s0 : EquipmentSlot)
    (h' : Nat) (s' : EquipmentSlot) :
    getEquipped (unequip st h0 s0) h' s' =
      if h' = h0 ∧ s' = s0 then none else getEquipped st h' s' := by
  rw [getEquipped_eq_lkp, getEquipped_eq_lkp]
  exact lkp_removeEquip st.hero_equipment h0 s0 h' s'

/-- C1: `canEquip(i, s)` holds exactly when the slot tag is among the item's
types, or the slot is weapon/shield and the item is two-handed, or the slot
is armor/helm and the item is a robe; in particular a robe-only item is
accepted at armor and rejected at weapon. -/
theorem canEquip_complete :
    (∀ (i : Item) (s : EquipmentSlot),
      canEquip i s = true ↔
        (slotToItemType s ∈ i.item_types
          ∨ ((s = .weapon ∨ s = .shield) ∧ ItemType.two_handed_weapon ∈ i.item_types)
          ∨ ((s = .armor ∨ s = .helm) ∧ ItemType.robe ∈ i.item_types)))
    ∧ canEquip ⟨1, "r", none, [ItemType.robe]⟩ .armor = true
    ∧ canEquip ⟨1, "r", none, [ItemType.robe]⟩ .weapon = false := by
  refine ⟨fun i s => ?_, by decide, by decide⟩
  simp [canEquip, or_assoc]

/-- C2: a successful equip of a two-handed item into the weapon slot leaves
the shield slot empty (and symmetrically for the shield slot), whatever the
sibling slot held before; the target slot holds the item. -/
theorem equip_two_handed_clears_sibling (items : List Item) (st st' : DBState)
    (h itemId : Nat) (item : Item) (s s' : EquipmentSlot)
    (hfind : findItem items itemId = some item)
    (hth : ItemType.two_handed_weapon ∈ item.item_types)
    (hss : (s = .weapon ∧ s' = .shield) ∨ (s = .shield ∧ s' = .weapon))
    (hok : equip items st h itemId s = .ok st') :
    getEquipped st' h s' = none ∧ getEquipped st' h s = some itemId := by
  have hth' : isTwoHanded items itemId = true := by
    simp [isTwoHanded, hfind, hth]
  have hws : s = .weapon ∨ s = .shield := by
    rcases hss with ⟨a, _⟩ | ⟨a, _⟩
    · exact Or.inl a
    · exact Or.inr a
  have hws' : s' = .weapon ∨ s' = .shield := by
    rcases hss with ⟨_, a⟩ | ⟨_, a⟩
    · exact Or.inr a
    · exact Or.inl a
  have hne : s' ≠ s := by
    rcases hss with ⟨rfl, rfl⟩ | ⟨rfl, rfl⟩ <;> decide
  constructor
  · rw [getEquipped_equip_ok items st st' h itemId s hok h s',
      if_neg (by rintro ⟨_, h2⟩; exact hne h2),
      if_pos ⟨hws, hth', rfl, hws'⟩]
  · rw [getEquipped_equip_ok items st st' h itemId s hok h s, if_pos ⟨rfl, rfl⟩]

theorem equip_two_handed_clears_sibling_witness :
    getEquipped ⟨[⟨0, 1, .weapon⟩], []⟩ 0 .shield = none
    ∧ getEquipped ⟨[⟨0, 1, .weapon⟩], []⟩ 0 .weapon = some 1 :=
  equip_two_handed_clears_sibling
    [⟨1, "g", none, [ItemType.two_handed_weapon]⟩, ⟨2, "b", none, [ItemType.shield]⟩]
    ⟨[⟨0, 2, .shield⟩], []⟩ ⟨[⟨0, 1, .weapon⟩], []⟩ 0 1
    ⟨1, "g", none, [ItemType.two_handed_weapon]⟩ .weapon .shield
    rfl (by decide) (Or.inl ⟨rfl, rfl⟩) rfl

/-- C3 counterexample: an item typed both `two_handed_weapon` and `helm`,
equipped into the helm slot while the weapon slot is occupied, succeeds and
leaves the weapon entry in place — the `enforce_two_handed_weapon` trigger
fires only when the written slot is weapon or shield, so no sibling entry is
removed, contradicting the claim that it is removed for every legal target
slot. -/
theorem equip_two_handed_helm_keeps_weapon :
    equip [⟨1, "hh", none, [ItemType.two_handed_weapon, ItemType.helm]⟩,
           ⟨2, "sw", none, [ItemType.weapon]⟩]
        ⟨[⟨0, 2, .weapon⟩], []⟩ 0 1 .helm
      = .ok ⟨[⟨0, 1, .helm⟩, ⟨0, 2, .weapon⟩], []⟩
    ∧ ItemType.two_handed_weapon ∈
        (⟨1, "hh", none, [ItemType.two_handed_weapon, ItemType.helm]⟩ : Item).item_types
    ∧ getEquipped ⟨[⟨0, 1, .helm⟩, ⟨0, 2, .weapon⟩], []⟩ 0 .weapon = some 2 := by
  refine ⟨rfl, by decide, by decide⟩

/-- C3 amended: on a successful equip of a two-handed item into slot `s`,
the hero's other weapon/shield entries are removed exactly when `s` itself is
the weapon or shield slot; when `s` is any other slot the weapon and shield
entries are left unchanged. -/
theorem equip_two_handed_clears_only_from_ws (items : List Item)
    (st st' : DBState) (h itemId : Nat) (item : Item) (s : EquipmentSlot)
    (hfind : findItem items itemId = some item)
    (hth : ItemType.two_handed_weapon ∈ item.item_types)
    (hok : equip items st h itemId s = .ok st') :
    ∀ s', (s' = .weapon ∨ s' = .shield) → s' ≠ s →
      getEquipped st' h s' =
        if s = .weapon ∨ s = .shield then none else getEquipped st h s' := by
  intro s' hs' hne
  have hth' : isTwoHanded items itemId = true := by
    simp [isTwoHanded, hfind, hth]
  rw [getEquipped_equip_ok items st st' h itemId s hok h s',
    if_neg (by rintro ⟨_, h2⟩; exact hne h2)]
  by_cases hws : s = .weapon ∨ s = .shield
  · rw [if_pos ⟨hws, hth', rfl, hs'⟩, if_pos hws]
  · rw [if_neg (by rintro ⟨a, _⟩; exact hws a), if_neg hws]

theorem equip_two_handed_clears_only_from_ws_witness :
    getEquipped ⟨[⟨0, 1, .shield⟩], []⟩ 0 .weapon =
      if EquipmentSlot.shield = .weapon ∨ EquipmentSlot.shield = .shield then none
      else getEquipped ⟨[⟨0, 2, .weapon⟩], []⟩ 0 .weapon :=
  equip_two_handed_clears_only_from_ws
    [⟨1, "g", none, [ItemType.two_handed_weapon]⟩]
    ⟨[⟨0, 2, .weapon⟩], []⟩ ⟨[⟨0, 1, .shield⟩], []⟩ 0 1
    ⟨1, "g", none, [ItemType.two_handed_weapon]⟩ .shield
    rfl (by decide) rfl .weapon (Or.inl rfl) (by decide)

/-- C4: when the catalog item is incompatible with the target slot, `equip`
fails with the slot-validation error and — the exception aborting the
transaction — the database state is unchanged. -/
theorem equip_rejects_incompatible (items : List Item) (st : DBState)
    (h itemId : Nat) (item : Item) (s : EquipmentSlot)
    (hfind : findItem items itemId = some item)
    (hcan : canEquip item s = false) :
    equip items st h itemId s = .error .incompatibleSlot
    ∧ applyEquip items st h itemId s = st := by
  have hv : validate_equipment_slot items itemId s = false := by
    simp [validate_equipment_slot, hfind, hcan]
  constructor
  · simp [equip, hv]
  · simp [applyEquip, equip, hv]

theorem equip_rejects_incompatible_witness :
    equip [⟨1, "hm", none, [ItemType.helm]⟩] ⟨[⟨0, 9, .weapon⟩], []⟩ 0 1 .weapon
      = .error .incompatibleSlot
    ∧ applyEquip [⟨1, "hm", none, [ItemType.helm]⟩] ⟨[⟨0, 9, .weapon⟩], []⟩ 0 1 .weapon
      = ⟨[⟨0, 9, .weapon⟩], []⟩ :=
  equip_rejects_incompatible [⟨1, "hm", none, [ItemType.helm]⟩]
    ⟨[⟨0, 9, .weapon⟩], []⟩ 0 1 ⟨1, "hm", none, [ItemType.helm]⟩ .weapon
    rfl (by decide)

/-- C5: in every state reachable from an empty equipment state by successful
equip and unequip operations, no hero holds a two-handed item in the weapon
slot and the shield slot at the same time. -/
theorem reachable_no_two_handed_both_slots (items : List Item) (st : DBState)
    (hr : Reachable items st) :
    ∀ h i, ¬(getEquipped st h .weapon = some i ∧ getEquipped st h .shield = some i
      ∧ isTwoHanded items i = true) := by
  induction hr with
  | empty inv =>
    rintro h i ⟨h1, -, -⟩
    simp [getEquipped] at h1
  | equip_step st st' h0 itemId s hr hok ih =>
    rintro h i ⟨hw, hs, hth⟩
    rw [getEquipped_equip_ok items st st' h0 itemId s hok h .weapon] at hw
    rw [getEquipped_equip_ok items st st' h0 itemId s hok h .shield] at hs
    by_cases hh : h = h0
    · subst hh
      cases s with
      | weapon =>
        rw [if_pos ⟨rfl, rfl⟩] at hw
        have hi : itemId = i := Option.some.inj hw
        have hth' : isTwoHanded items itemId = true := hi ▸ hth
        rw [if_neg (by rintro ⟨-, h2⟩; exact EquipmentSlot.noConfusion h2),
          if_pos ⟨Or.inl rfl, hth', rfl, Or.inr rfl⟩] at hs
        exact Option.noConfusion hs
      | shield =>
        rw [if_pos ⟨rfl, rfl⟩] at hs
        have hi : itemId = i := Option.some.inj hs
        have hth' : isTwoHanded items itemId = true := hi ▸ hth
        rw [if_neg (by rintro ⟨-, h2⟩; exact EquipmentSlot.noConfusion h2),
          if_pos ⟨Or.inr rfl, hth', rfl, Or.inl rfl⟩] at hw
        exact Option.noConfusion hw
      | helm =>
        rw [if_neg (by rintro ⟨-, h2⟩; exact EquipmentSlot.noConfusion h2),
          if_neg (by rintro ⟨a | a, -⟩ <;> exact EquipmentSlot.noConfusion a)] at hw hs
        exact ih h i ⟨hw, hs, hth⟩
      | armor =>
        rw [if_neg (by rintro ⟨-, h2⟩; exact EquipmentSlot.noConfusion h2),
          if_neg (by rintro ⟨a | a, -⟩ <;> exact EquipmentSlot.noConfusion a)] at hw hs
        exact ih h i ⟨hw, hs, hth⟩
      | gloves =>
        rw [if_neg (by rintro ⟨-, h2⟩; exact EquipmentSlot.noConfusion h2),
          if_neg (by rintro ⟨a | a, -⟩ <;> exact EquipmentSlot.noConfusion a)] at hw hs
        exact ih h i ⟨hw, hs, hth⟩
    · rw [if_neg (by rintro ⟨a, -⟩; exact hh a),
        if_neg (by rintro ⟨-, -, a, -⟩; exact hh a)] at hw hs
      exact ih h i ⟨hw, hs, hth⟩
  | unequip_step st h0 s0 hr ih =>
    rintro h i ⟨hw, hs, hth⟩
    rw [getEquipped_unequip] at hw hs
    by_cases hcw : h = h0 ∧ EquipmentSlot.weapon = s0
    · rw [if_pos hcw] at hw
      exact Option.noConfusion hw
    · rw [if_neg hcw] at hw
      by_cases hcs : h = h0 ∧ EquipmentSlot.shield = s0
      · rw [if_pos hcs] at hs
        exact Option.noConfusion hs
      · rw [if_neg hcs] at hs
        exact ih h i ⟨hw, hs, hth⟩

theorem reachable_no_two_handed_both_slots_witness :
    ¬(getEquipped ⟨[], []⟩ 0 .weapon = some 1
      ∧ getEquipped ⟨[], []⟩ 0 .shield = some 1
      ∧ isTwoHanded [] 1 = true) :=
  reachable_no_two_handed_both_slots [] ⟨[], []⟩ (Reachable.empty []) 0 1

/-- C6: for a compatible item, equipping it twice in immediate succession
into the same slot succeeds both times and the second call leaves the state
produced by the first call exactly as it is. -/
theorem equip_idempotent (items : List Item) (st : DBState) (h itemId : Nat)
    (s : EquipmentSlot) (item : Item)
    (hfind : findItem items itemId = some item)
    (hcan : canEquip item s = true) :
    ∃ st', equip items st h itemId s = .ok st'
      ∧ equip items st' h itemId s = .ok st' := by
  have hv : validate_equipment_slot items itemId s = true := by
    simp [validate_equipment_slot, hfind, hcan]
  refine ⟨_, equip_of_validate items st h itemId s hv, ?_⟩
  rw [equip_of_validate items _ h itemId s hv]
  by_cases hc : (decide (s = .weapon ∨ s = .shield) && isTwoHanded items itemId) = true
  · simp only [hc, if_true]
    have hXd : deleteSiblings (⟨h, itemId, s⟩ :: removeEquip st.hero_equipment h s) h s
        = ⟨h, itemId, s⟩ :: deleteSiblings (removeEquip st.hero_equipment h s) h s := by
      rw [deleteSiblings_cons, if_neg]
      rintro ⟨-, -, hne⟩
      exact hne rfl
    rw [hXd]
    rw [removeEquip_cons, if_pos ⟨rfl, rfl⟩, removeEquip_deleteSiblings_comm,
      removeEquip_idem, deleteSiblings_cons,
      if_neg (by rintro ⟨-, -, hne⟩; exact hne rfl), deleteSiblings_idem]
  · have hc' : (decide (s = .weapon ∨ s = .shield) && isTwoHanded items itemId) = false := by
      simpa using hc
    simp only [hc', Bool.false_eq_true, if_false]
    rw [removeEquip_cons, if_pos ⟨rfl, rfl⟩, removeEquip_idem]

theorem equip_idempotent_witness :
    ∃ st', equip [⟨1, "g", none, [ItemType.two_handed_weapon]⟩] ⟨[], []⟩ 0 1 .weapon
        = .ok st'
      ∧ equip [⟨1, "g", none, [ItemType.two_handed_weapon]⟩] st' 0 1 .weapon
        = .ok st' :=
  equip_idempotent [⟨1, "g", none, [ItemType.two_handed_weapon]⟩] ⟨[], []⟩ 0 1
    .weapon ⟨1, "g", none, [ItemType.two_handed_weapon]⟩ rfl (by decide)

/-- C7: `unequip(h, s)` empties slot s, changes no other (hero, slot) cell —
in particular it never cascades to the sibling weapon/shield slot — and is a
successful no-op when the slot is already empty. -/
theorem unequip_correct (st : DBState) (h : Nat) (s : EquipmentSlot) :
    getEquipped (unequip st h s) h s = none
    ∧ (∀ h' s', ¬(h' = h ∧ s' = s) →
        getEquipped (unequip st h s) h' s' = getEquipped st h' s')
    ∧ (getEquipped st h s = none → unequip st h s = st) := by
  refine ⟨?_, ?_, ?_⟩
  · rw [getEquipped_unequip, if_pos ⟨rfl, rfl⟩]
  · intro h' s' hne
    rw [getEquipped_unequip, if_neg hne]
  · intro hempty
    have hfind : st.hero_equipment.find?
        (fun e => decide (e.hero_id = h ∧ e.slot = s)) = none := by
      rcases hfq : st.hero_equipment.find?
          (fun e => decide (e.hero_id = h ∧ e.slot = s)) with - | v
      · exact hfq
      · exfalso
        rw [getEquipped_eq_lkp] at hempty
        unfold lkp at hempty
        rw [hfq] at hempty
        exact Option.noConfusion hempty
    have hall := List.find?_eq_none.mp hfind
    have heq : removeEquip st.hero_equipment h s = st.hero_equipment :=
      List.filter_eq_self.mpr (fun e he => by
        have hne := hall e he
        simp at hne ⊢
        tauto)
    cases st with
    | mk eqp inv =>
      simp only [unequip]
      rw [show removeEquip eqp h s = eqp from heq]

theorem unequip_correct_witness :
    getEquipped (unequip ⟨[⟨0, 2, .weapon⟩], []⟩ 0 .weapon) 0 .weapon = none
    ∧ getEquipped (unequip ⟨[⟨0, 2, .weapon⟩], []⟩ 0 .weapon) 1 .helm
        = getEquipped ⟨[⟨0, 2, .weapon⟩], []⟩ 1 .helm
    ∧ unequip ⟨[⟨0, 2, .shield⟩], []⟩ 0 .weapon = ⟨[⟨0, 2, .shield⟩], []⟩ :=
  ⟨(unequip_correct ⟨[⟨0, 2, .weapon⟩], []⟩ 0 .weapon).1,
   (unequip_correct ⟨[⟨0, 2, .weapon⟩], []⟩ 0 .weapon).2.1 1 .helm (by decide),
   (unequip_correct ⟨[⟨0, 2, .shield⟩], []⟩ 0 .weapon).2.2 (by decide)⟩

/-- C8 counterexample: with an empty catalog, item id 1 is unresolvable, yet
`equip` fails with the same `incompatibleSlot` error the slot-validation
raises, not with the distinct `itemNotFound` error the claim requires. -/
theorem equip_unknown_item_error_value :
    equip [] ⟨[], []⟩ 0 1 .weapon = .error .incompatibleSlot
    ∧ (Except.error EquipError.incompatibleSlot : Except EquipError DBState)
        ≠ .error .itemNotFound := by
  refine ⟨rfl, ?_⟩
  intro hcontra
  exact EquipError.noConfusion (Except.error.inj hcontra)

/-- C8 amended: an unresolvable item id makes `equip` fail and leave the
state unchanged, but with the single slot-validation error
(`incompatibleSlot`) — the code does not distinguish a missing item from an
incompatible one. -/
theorem equip_unknown_item_rejected (items : List Item) (st : DBState)
    (h itemId : Nat) (s : EquipmentSlot)
    (hfind : findItem items itemId = none) :
    equip items st h itemId s = .error .incompatibleSlot
    ∧ applyEquip items st h itemId s = st := by
  have hv : validate_equipment_slot items itemId s = false := by
    simp [validate_equipment_slot, hfind]
  constructor
  · simp [equip, hv]
  · simp [applyEquip, equip, hv]

theorem equip_unknown_item_rejected_witness :
    equip [⟨2, "sw", none, [ItemType.weapon]⟩] ⟨[⟨0, 2, .weapon⟩], []⟩ 0 7 .weapon
      = .error .incompatibleSlot
    ∧ applyEquip [⟨2, "sw", none, [ItemType.weapon]⟩] ⟨[⟨0, 2, .weapon⟩], []⟩ 0 7 .weapon
      = ⟨[⟨0, 2, .weapon⟩], []⟩ :=
  equip_unknown_item_rejected [⟨2, "sw", none, [ItemType.weapon]⟩]
    ⟨[⟨0, 2, .weapon⟩], []⟩ 0 7 .weapon rfl

/-- C9: neither `equip` (successful or failing) nor `unequip` touches the
`hero_inventory` table: the inventory rows after the call are exactly the
rows before it. -/
theorem equip_unequip_preserve_inventory (items : List Item) (st : DBState)
    (h itemId : Nat) (s : EquipmentSlot) :
    (applyEquip items st h itemId s).hero_inventory = st.hero_inventory
    ∧ (∀ st', equip items st h itemId s = .ok st' →
        st'.hero_inventory = st.hero_inventory)
    ∧ (unequip st h s).hero_inventory = st.hero_inventory := by
  refine ⟨?_, ?_, rfl⟩
  · cases hval : validate_equipment_slot items itemId s with
    | true => simp [applyEquip, equip, hval]
    | false => simp [applyEquip, equip, hval]
  · intro st' hok
    rw [equip_ok_state items st st' h itemId s hok]

theorem equip_unequip_preserve_inventory_witness :
    (applyEquip [] ⟨[], [⟨0, 5, 3⟩]⟩ 0 1 .weapon).hero_inventory = [⟨0, 5, 3⟩]
    ∧ (unequip ⟨[], [⟨0, 5, 3⟩]⟩ 0 .weapon).hero_inventory = [⟨0, 5, 3⟩] :=
  ⟨(equip_unequip_preserve_inventory [] ⟨[], [⟨0, 5, 3⟩]⟩ 0 1 .weapon).1,
   (equip_unequip_preserve_inventory [] ⟨[], [⟨0, 5, 3⟩]⟩ 0 1 .weapon).2.2⟩

/-- C10: a successful equip of a non-two-handed item into the weapon or
shield slot writes the target slot and leaves every other (hero, slot) cell
— the sibling slot included — exactly as before. -/
theorem equip_non_two_handed_frame (items : List Item) (st st' : DBState)
    (h itemId : Nat) (item : Item) (s : EquipmentSlot)
    (hfind : findItem items itemId = some item)
    (hnth : ItemType.two_handed_weapon ∉ item.item_types)
    (_hws : s = .weapon ∨ s = .shield)
    (_hcan : canEquip item s = true)
    (hok : equip items st h itemId s = .ok st') :
    getEquipped st' h s = some itemId
    ∧ ∀ h' s', ¬(h' = h ∧ s' = s) →
        getEquipped st' h' s' = getEquipped st h' s' := by
  have hnth' : isTwoHanded items itemId = false := by
    simp [isTwoHanded, hfind, hnth]
  constructor
  · rw [getEquipped_equip_ok items st st' h itemId s hok h s, if_pos ⟨rfl, rfl⟩]
  · intro h' s' hne
    rw [getEquipped_equip_ok items st st' h itemId s hok h' s', if_neg hne, if_neg]
    rintro ⟨-, hth, -⟩
    rw [hnth'] at hth
    exact Bool.noConfusion hth

theorem equip_non_two_handed_frame_witness :
    getEquipped ⟨[⟨0, 1, .weapon⟩, ⟨0, 3, .shield⟩], []⟩ 0 .weapon = some 1
    ∧ getEquipped ⟨[⟨0, 1, .weapon⟩, ⟨0, 3, .shield⟩], []⟩ 0 .shield
        = getEquipped ⟨[⟨0, 3, .shield⟩], []⟩ 0 .shield :=
  ⟨(equip_non_two_handed_frame [⟨1, "sw", none, [ItemType.weapon]⟩]
      ⟨[⟨0, 3, .shield⟩], []⟩ ⟨[⟨0, 1, .weapon⟩, ⟨0, 3, .shield⟩], []⟩ 0 1
      ⟨1, "sw", none, [ItemType.weapon]⟩ .weapon
      rfl (by decide) (Or.inl rfl) (by decide) rfl).1,
   (equip_non_two_handed_frame [⟨1, "sw", none, [ItemType.weapon]⟩]
      ⟨[⟨0, 3, .shield⟩], []⟩ ⟨[⟨0, 1, .weapon⟩, ⟨0, 3, .shield⟩], []⟩ 0 1
      ⟨1, "sw", none, [ItemType.weapon]⟩ .weapon
      rfl (by decide) (Or.inl rfl) (by decide) rfl).2 0 .shield (by decide)⟩
